import Mathlib

/-!
Verification of the Security Monitoring & Threat Detection Engine
(`security.py` of the Sarah AI Assistant repository).

The Python module is shallowly embedded below:

* byte values become `Fin 256`;
* filesystem paths become lists of components (`Path`), so that
  `os.path.join` is list append and `os.path.basename` is the last
  component;
* the filesystem itself becomes an explicit structure (a partial map from
  paths to file data plus a set of existing directories), threaded through
  the operations that touch it;
* the mutable `SecurityHandler` state (the `threat_log` list, the
  `is_monitoring` flag, the set of live monitoring threads, and the
  user-facing `speak` / `log_message(..., "ERROR")` side effects) becomes
  the explicit record `SecState`;
* `float` entropy arithmetic becomes exact real arithmetic.

Each definition carries a comment pointing at the Python source it embeds.
-/

namespace Security

/-- A byte value, as produced by reading a file in binary mode. -/
abbrev Byte := Fin 256

/-- A filesystem path, as its list of components.  `os.path.join p c` is
`p ++ [c]` and `os.path.basename` is `List.getLastD ""`. -/
abbrev Path := List String

/-- Embedding of Python `str.lower()` (used by `check_hash_reputation`). -/
def lowerStr (s : String) : String := ⟨s.data.map Char.toLower⟩

/-- One element of `result['threats_found']` in `scan_file_for_threats`:
a dict `{'type': ..., 'description': ...}`. -/
structure Finding where
  type : String
  description : String
deriving DecidableEq

/-- The result dict built by `scan_file_for_threats` (security.py lines
242-291).  The float shown inside the `high_entropy` description string is
abstracted away; every other field is kept. -/
structure FileScanResult where
  file_path : Path
  file_size : Nat
  scan_time : Int
  threats_found : List Finding
  is_safe : Bool
  file_hash : String
deriving DecidableEq

/-- The `details` payload passed to `log_threat`, one constructor per call
site in security.py. -/
inductive Details where
  /-- process info dict from `scan_running_processes` -/
  | procInfo (name : String) (cpu_percent mem_percent : ℚ)
  /-- single-metric dict from `check_system_resources`, e.g.
  `{'cpu_percent': cpu_percent}` -/
  | resourceInfo (metric : String) (value : ℚ)
  /-- connection dict from `monitor_network_connections` -/
  | connInfo (remote_ip : String) (remote_port : Nat) (pid : Nat)
  /-- the full scan result dict from `scan_file_for_threats` -/
  | scanResult (result : FileScanResult)
  /-- the `quarantine_info` dict from `quarantine_file` -/
  | quarantineInfo (original_path : Path) (quarantine_path : Path)
      (quarantined_at : Int)
deriving DecidableEq

/-- One entry of `self.threat_log` as built by `log_threat` (security.py
lines 189-194).  Timestamps are integers (seconds). -/
structure ThreatEntry where
  timestamp : Int
  type : String
  details : Details
  severity : String
deriving DecidableEq

/-- The mutable state of the `SecurityHandler` instance together with its
observable side effects: `threat_log` is `self.threat_log`,
`is_monitoring` is `self.is_monitoring`, `threads` counts the live
background monitoring threads, `spoken` records every `speak(...)` call,
`errors` records every `log_message(..., "ERROR")` call, and `elapsed`
accumulates the `time.sleep` delays of the monitoring loop. -/
structure SecState where
  is_monitoring : Bool
  threads : Nat
  threat_log : List ThreatEntry
  spoken : List String
  errors : List String
  elapsed : Nat
deriving DecidableEq

/-- The freshly constructed handler: `is_monitoring = False`,
`threat_log = []`, no thread started yet. -/
def initState : SecState :=
  { is_monitoring := false, threads := 0, threat_log := [],
    spoken := [], errors := [], elapsed := 0 }

/-- `high_severity` list of `get_threat_severity` (security.py 210-215). -/
def high_severity : List String :=
  ["suspicious_process", "malware_detected", "unauthorized_access",
   "suspicious_network_connection"]

/-- `medium_severity` list of `get_threat_severity` (security.py 217-221). -/
def medium_severity : List String :=
  ["high_cpu_usage", "high_memory_usage", "unusual_file_activity"]

/-- `get_threat_severity` (security.py 208-228): fixed lookup with default
`'low'`. -/
def get_threat_severity (threat_type : String) : String :=
  if threat_type ∈ high_severity then "high"
  else if threat_type ∈ medium_severity then "medium"
  else "low"

/-- The `threat_entry` dict built at the top of `log_threat`
(security.py 189-194). -/
def mkThreatEntry (now : Int) (threat_type : String) (details : Details) :
    ThreatEntry :=
  { timestamp := now, type := threat_type, details := details,
    severity := get_threat_severity threat_type }

/-- `log_threat` (security.py 187-206): append the entry, keep only the
most recent 1000 entries (`self.threat_log = self.threat_log[-1000:]`),
and `speak` an alert for high severity. -/
def log_threat (now : Int) (threat_type : String) (details : Details)
    (s : SecState) : SecState :=
  let entry := mkThreatEntry now threat_type details
  let appended := s.threat_log ++ [entry]
  let trimmed :=
    if appended.length > 1000 then appended.drop (appended.length - 1000)
    else appended
  { s with
    threat_log := trimmed,
    spoken :=
      if entry.severity = "high" then
        s.spoken ++ ["Security alert: " ++ threat_type ++ " detected"]
      else s.spoken }

/-- A sequence of `log_threat` calls, each giving the timestamp, the
threat type and the details. -/
def runLog (calls : List (Int × String × Details)) (s : SecState) :
    SecState :=
  calls.foldl (fun t c => log_threat c.1 c.2.1 c.2.2 t) s

/-- `calculate_file_entropy` (security.py 312-345): Shannon entropy over
the byte-value frequencies of the whole stream.  The Python loop folds
`entropy -= probability * math.log2(probability)` over the counts of the
byte values that occur (`Counter` only holds occurring bytes, and the
`if probability > 0` guard keeps exactly those); an empty stream returns
0.  Float arithmetic is embedded as exact real arithmetic. -/
noncomputable def calculate_file_entropy (content : List Byte) : ℝ :=
  if content.length = 0 then 0
  else
    ∑ b : Byte,
      if 0 < content.count b then
        -((content.count b : ℝ) / (content.length : ℝ) *
          Real.logb 2 ((content.count b : ℝ) / (content.length : ℝ)))
      else 0

/-- The data of one file on disk, as observed by the scanner: its size
(`os.path.getsize`), its lowercased extension
(`os.path.splitext(file_path)[1].lower()`), its byte content, and the hex
digest `calculate_file_hash` computes for it (the sha-256 function itself
is kept uninterpreted). -/
structure FileData where
  size : Nat
  ext : String
  content : List Byte
  hash : String
deriving DecidableEq

/-- The filesystem the engine works against: a partial map from paths to
file data (`os.path.exists` on a file path is definedness here) plus the
set of existing directories (for `os.makedirs`). -/
structure FileSystem where
  files : Path → Option FileData
  dirs : List Path

/-- `DATA_DIR = "data"` from config.py. -/
def DATA_DIR : Path := ["data"]

/-- `SECURITY_SCAN_INTERVAL = 300` from config.py. -/
def SECURITY_SCAN_INTERVAL : Nat := 300

/-- The `suspicious_extensions` list of `scan_file_for_threats`
(security.py 255). -/
def suspicious_extensions : List String :=
  [".exe", ".scr", ".bat", ".cmd", ".pif", ".com", ".vbs", ".js"]

/-- The `known_bad_hashes` set of `check_hash_reputation`
(security.py 360-363). -/
def known_bad_hashes : List String :=
  ["44d88612fea8a8f36de82e1278abb02f"]

/-- `check_hash_reputation` (security.py 347-369):
`file_hash.lower() in known_bad_hashes`. -/
def check_hash_reputation (file_hash : String) : Bool :=
  known_bad_hashes.contains (lowerStr file_hash)

/-- The extension check of `scan_file_for_threats` (security.py 253-261). -/
def extension_findings (f : FileData) : List Finding :=
  if f.ext ∈ suspicious_extensions then
    [{ type := "suspicious_extension",
       description :=
         "File has potentially dangerous extension: " ++ f.ext }]
  else []

/-- The size check of `scan_file_for_threats` (security.py 263-268). -/
def size_findings (f : FileData) : List Finding :=
  if f.size > 100 * 1024 * 1024 then
    [{ type := "large_file_size",
       description :=
         "Unusually large file: " ++ toString f.size ++ " bytes" }]
  else []

/-- The entropy check of `scan_file_for_threats` (security.py 270-276).
The entropy value interpolated into the description string is omitted. -/
noncomputable def entropy_findings (f : FileData) : List Finding :=
  if 7.5 < calculate_file_entropy f.content then
    [{ type := "high_entropy",
       description :=
         "High entropy detected (possible encryption/packing)" }]
  else []

/-- The reputation check of `scan_file_for_threats` (security.py 278-283). -/
def hash_findings (f : FileData) : List Finding :=
  if check_hash_reputation f.hash then
    [{ type := "known_malware_hash",
       description := "File hash matches known malware signature" }]
  else []

/-- Outcome of `scan_file_for_threats`: either the error dict
`{'error': ...}` or the result dict. -/
inductive ScanOutcome where
  | error (msg : String)
  | ok (result : FileScanResult)
deriving DecidableEq

/-- `scan_file_for_threats` (security.py 230-295): returns
`{'error': 'File not found'}` when the path does not exist; otherwise runs
the four checks in source order, each appending its findings to
`threats_found`, sets `is_safe = len(threats_found) == 0`, and when unsafe
calls `log_threat('file_threat_detected', result)`. -/
noncomputable def scan_file_for_threats (fs : FileSystem) (now : Int)
    (file_path : Path) (s : SecState) : ScanOutcome × SecState :=
  match fs.files file_path with
  | none => (.error "File not found", s)
  | some f =>
    let threats :=
      extension_findings f ++ size_findings f ++ entropy_findings f ++
        hash_findings f
    let result : FileScanResult :=
      { file_path := file_path, file_size := f.size, scan_time := now,
        threats_found := threats, is_safe := threats.length == 0,
        file_hash := f.hash }
    let s' :=
      if result.is_safe then s
      else log_threat now "file_threat_detected" (.scanResult result) s
    (.ok result, s')

/-- `quarantine_file` (security.py 371-413): returns `False` when the
source path does not exist; otherwise creates `DATA_DIR/quarantine` if
absent, moves the file to `<timestamp>_<basename>` inside it
(`shutil.move`), logs a `file_quarantined` threat with the original path,
the quarantine path and the timestamp, speaks a notice, and returns
`True`.  `ts` is the rendered `strftime('%Y%m%d_%H%M%S')` string of the
instant `now`. -/
def quarantine_file (fs : FileSystem) (ts : String) (now : Int)
    (file_path : Path) (s : SecState) : Bool × FileSystem × SecState :=
  match fs.files file_path with
  | none => (false, fs, s)
  | some _ =>
    let quarantine_dir : Path := DATA_DIR ++ ["quarantine"]
    let fs1 : FileSystem :=
      if quarantine_dir ∈ fs.dirs then fs
      else { fs with dirs := fs.dirs ++ [quarantine_dir] }
    let filename := file_path.getLastD ""
    let quarantine_path : Path := quarantine_dir ++ [ts ++ "_" ++ filename]
    let fs2 : FileSystem :=
      { fs1 with
        files := fun q =>
          if q = quarantine_path then fs1.files file_path
          else if q = file_path then none
          else fs1.files q }
    let s1 :=
      log_threat now "file_quarantined"
        (.quarantineInfo file_path quarantine_path now) s
    let s2 :=
      { s1 with
        spoken := s1.spoken ++ ["Suspicious file quarantined: " ++ filename] }
    (true, fs2, s2)

/-- `check_system_resources` (security.py 133-156): logs
`high_system_cpu` when cpu > 95, `high_system_memory` when memory > 90,
`low_disk_space` when disk > 95. -/
def check_system_resources (cpu_percent memory_percent disk_percent : ℚ)
    (now : Int) (s : SecState) : SecState :=
  let s1 :=
    if cpu_percent > 95 then
      log_threat now "high_system_cpu" (.resourceInfo "cpu_percent" cpu_percent) s
    else s
  let s2 :=
    if memory_percent > 90 then
      log_threat now "high_system_memory"
        (.resourceInfo "memory_percent" memory_percent) s1
    else s1
  if disk_percent > 95 then
    log_threat now "low_disk_space"
      (.resourceInfo "disk_percent" disk_percent) s2
  else s2

/-- The filter `[t for t in self.threat_log if t['severity'] == 'high' and
fromisoformat(t['timestamp']) > now - timedelta(hours=1)]`
(security.py 446-448). -/
def recent_high_threats (now : Int) (log : List ThreatEntry) :
    List ThreatEntry :=
  log.filter (fun t => decide (t.severity = "high") &&
    decide (now - 3600 < t.timestamp))

/-- The status dict built by `get_system_security_status`
(security.py 418-426). -/
structure SecurityStatus where
  monitoring_active : Bool
  recent_threats : Nat
  total_threats_logged : Nat
  last_scan : Int
  system_health : String
  recommendations : List String
deriving DecidableEq

/-- `get_system_security_status` (security.py 415-458): starts from
`'good'`, overwrites with `'warning'` on cpu > 80 or memory > 85, with
`'critical'` on disk > 90 or on a high-severity threat in the last hour;
recommendations are appended per triggered condition.  The gauge readings
are the live `psutil` values. -/
def get_system_security_status (cpu_percent memory_percent disk_percent : ℚ)
    (now : Int) (s : SecState) : SecurityStatus :=
  let health1 := if cpu_percent > 80 then "warning" else "good"
  let recs1 :=
    if cpu_percent > 80 then ["High CPU usage detected"] else ([] : List String)
  let health2 := if memory_percent > 85 then "warning" else health1
  let recs2 :=
    recs1 ++ if memory_percent > 85 then ["High memory usage detected"] else []
  let health3 := if disk_percent > 90 then "critical" else health2
  let recs3 :=
    recs2 ++
      if disk_percent > 90 then ["Low disk space - cleanup recommended"]
      else []
  let rhigh := recent_high_threats now s.threat_log
  let health4 := if rhigh.length ≠ 0 then "critical" else health3
  let recs4 :=
    recs3 ++
      if rhigh.length ≠ 0 then ["Recent high-severity threats detected"]
      else []
  { monitoring_active := s.is_monitoring,
    recent_threats :=
      (s.threat_log.filter (fun t => decide (now - 86400 < t.timestamp))).length,
    total_threats_logged := s.threat_log.length,
    last_scan := now,
    system_health := health4,
    recommendations := recs4 }

/-- `start_monitoring` (security.py 43-62): no-op when already running,
otherwise sets the flag, spawns one background thread running
`_monitoring_loop`, and speaks an activation notice. -/
def start_monitoring (s : SecState) : SecState :=
  if s.is_monitoring then s
  else
    { s with
      is_monitoring := true,
      threads := s.threads + 1,
      spoken := s.spoken ++ ["Security monitoring activated"] }

/-- `stop_monitoring` (security.py 64-68): clears the flag and speaks a
deactivation notice; the background thread is not touched here. -/
def stop_monitoring (s : SecState) : SecState :=
  { s with
    is_monitoring := false,
    spoken := s.spoken ++ ["Security monitoring deactivated"] }

/-- One background thread reaching the `while self.is_monitoring` test at
the top of `_monitoring_loop` (security.py 72): if the flag is still set
the thread keeps looping, otherwise it exits. -/
def loop_boundary_check (s : SecState) : SecState :=
  if s.is_monitoring then s else { s with threads := s.threads - 1 }

/-- What the environment makes one monitoring cycle do: either the three
checks raise an exception with the given message, or they run and report
the given anomalies (timestamp, kind, details) to `log_threat`. -/
inductive CycleBehavior where
  | fault (msg : String)
  | ok (threats : List (Int × String × Details))

/-- One iteration of the `while` body of `_monitoring_loop`
(security.py 72-83): on a fault, the `except` branch logs the operational
error and sleeps a full interval; on success, the checks log their
anomalies and the loop sleeps a full interval. -/
def runCycle (interval : Nat) (b : CycleBehavior) (s : SecState) : SecState :=
  match b with
  | .fault msg =>
    { s with
      errors := s.errors ++ ["Security monitoring error: " ++ msg],
      elapsed := s.elapsed + interval }
  | .ok threats =>
    { runLog threats s with elapsed := s.elapsed + interval }

/-- `_monitoring_loop` (security.py 70-83) driven by a finite prefix of
environment behaviors: before each cycle the loop re-checks
`self.is_monitoring` and exits when it is cleared. -/
def monitoring_loop (interval : Nat) :
    List CycleBehavior → SecState → SecState
  | [], s => s
  | b :: rest, s =>
    if s.is_monitoring then monitoring_loop interval rest (runCycle interval b s)
    else s

/-- An interleaving event of the start/stop lifecycle: a `start_monitoring`
call, a `stop_monitoring` call, or one live background thread reaching its
`while self.is_monitoring` loop boundary. -/
inductive LifeEvent where
  | start
  | stop
  | check
deriving DecidableEq

/-- Apply one lifecycle event to the handler state. -/
def applyEvent : LifeEvent → SecState → SecState
  | .start, s => start_monitoring s
  | .stop, s => stop_monitoring s
  | .check, s => loop_boundary_check s

/-- Run a sequence of lifecycle events. -/
def runEvents (es : List LifeEvent) (s : SecState) : SecState :=
  es.foldl (fun t e => applyEvent e t) s

/-- A lifecycle trace is drain-safe when every `start` is issued only
while the loop is still flagged as running (so the call is a no-op) or
after every previously spawned thread has observed the cleared flag and
exited. -/
def safeEvents : SecState → List LifeEvent → Bool
  | _, [] => true
  | s, e :: rest =>
    (match e with
     | .start => s.is_monitoring || s.threads == 0
     | _ => true) && safeEvents (applyEvent e s) rest

/-! ## Helper lemmas about the threat log -/

theorem trim_step {α : Type} (c : Nat) (hc : 0 < c) (L : List α) (e : α) :
    (if (L.drop (L.length - c) ++ [e]).length > c then
      (L.drop (L.length - c) ++ [e]).drop
        ((L.drop (L.length - c) ++ [e]).length - c)
    else L.drop (L.length - c) ++ [e]) =
    (L ++ [e]).drop (L.length + 1 - c) := by
  by_cases h : L.length < c
  · have h0 : L.length - c = 0 := by omega
    have h1 : L.length + 1 - c = 0 := by omega
    rw [h0, h1, List.drop_zero, List.drop_zero, if_neg]
    simp
    omega
  · push_neg at h
    have hk : (L.drop (L.length - c)).length = c := by
      rw [List.length_drop]; omega
    rw [if_pos (by simp [hk])]
    have hlen2 : (L.drop (L.length - c) ++ [e]).length - c = 1 := by
      simp [hk]
    rw [hlen2,
      List.drop_append_of_le_length (by omega : 1 ≤ (L.drop (L.length - c)).length),
      List.drop_drop,
      List.drop_append_of_le_length (by omega : L.length + 1 - c ≤ L.length)]
    have : L.length - c + 1 = L.length + 1 - c := by omega
    rw [this]

theorem log_threat_threat_log (now : Int) (t : String) (d : Details)
    (s : SecState) (L : List ThreatEntry)
    (hs : s.threat_log = L.drop (L.length - 1000)) :
    (log_threat now t d s).threat_log =
      (L ++ [mkThreatEntry now t d]).drop (L.length + 1 - 1000) := by
  have := trim_step 1000 (by omega) L (mkThreatEntry now t d)
  simpa [log_threat, hs] using this

theorem runLog_threat_log (calls : List (Int × String × Details)) :
    ∀ (L : List ThreatEntry) (s : SecState),
      s.threat_log = L.drop (L.length - 1000) →
      (runLog calls s).threat_log =
        (L ++ calls.map fun c => mkThreatEntry c.1 c.2.1 c.2.2).drop
          (L.length + calls.length - 1000) := by
  induction calls with
  | nil => intro L s hs; simpa [runLog] using hs
  | cons c cs ih =>
    intro L s hs
    have hstep := log_threat_threat_log c.1 c.2.1 c.2.2 s L hs
    have := ih (L ++ [mkThreatEntry c.1 c.2.1 c.2.2]) (log_threat c.1 c.2.1 c.2.2 s)
      (by simpa using hstep)
    have harr : (L ++ [mkThreatEntry c.1 c.2.1 c.2.2]) ++
        cs.map (fun c => mkThreatEntry c.1 c.2.1 c.2.2) =
        L ++ (c :: cs).map (fun c => mkThreatEntry c.1 c.2.1 c.2.2) := by
      simp
    have hlen : (L ++ [mkThreatEntry c.1 c.2.1 c.2.2]).length + cs.length - 1000 =
        L.length + (c :: cs).length - 1000 := by
      simp; omega
    calc (runLog (c :: cs) s).threat_log
        = (runLog cs (log_threat c.1 c.2.1 c.2.2 s)).threat_log := rfl
      _ = _ := by rw [this, harr, hlen]

theorem log_threat_is_monitoring (now : Int) (t : String) (d : Details)
    (s : SecState) : (log_threat now t d s).is_monitoring = s.is_monitoring :=
  rfl

theorem runLog_is_monitoring (calls : List (Int × String × Details)) :
    ∀ s : SecState, (runLog calls s).is_monitoring = s.is_monitoring := by
  induction calls with
  | nil => intro s; rfl
  | cons c cs ih =>
    intro s
    calc (runLog (c :: cs) s).is_monitoring
        = (runLog cs (log_threat c.1 c.2.1 c.2.2 s)).is_monitoring := rfl
      _ = s.is_monitoring := ih _

theorem mem_log_threat {e : ThreatEntry} {now : Int} {t : String}
    {d : Details} {s : SecState}
    (h : e ∈ (log_threat now t d s).threat_log) :
    e ∈ s.threat_log ∨ e = mkThreatEntry now t d := by
  unfold log_threat at h
  simp only at h
  split at h
  · have := List.mem_of_mem_drop h
    simpa [List.mem_append] using this
  · simpa [List.mem_append] using h

theorem mem_cond_log_threat {e : ThreatEntry} {cond : Prop} [Decidable cond]
    {now : Int} {t : String} {d : Details} {s : SecState}
    (h : e ∈ (if cond then log_threat now t d s else s).threat_log) :
    e ∈ s.threat_log ∨ e = mkThreatEntry now t d := by
  split at h
  · exact mem_log_threat h
  · exact Or.inl h

theorem log_threat_spoken_of_not_high {now : Int} {t : String} {d : Details}
    {s : SecState} (h : get_threat_severity t ≠ "high") :
    (log_threat now t d s).spoken = s.spoken := by
  simp [log_threat, mkThreatEntry, h]

theorem spoken_cond_log_threat {cond : Prop} [Decidable cond] {now : Int}
    {t : String} {d : Details} {s : SecState}
    (h : get_threat_severity t ≠ "high") :
    (if cond then log_threat now t d s else s).spoken = s.spoken := by
  split
  · exact log_threat_spoken_of_not_high h
  · rfl

/-! ## The claims -/

/-- C1: for every sequence of `log_threat` calls starting from the fresh
handler, the threat log's length stays at most 1000 after each insertion,
and the log is exactly the most recent (at most) 1000 created entries in
arrival order — eviction removes the oldest entries first. -/
theorem threat_log_capacity_fifo (calls : List (Int × String × Details)) :
    (runLog calls initState).threat_log.length ≤ 1000 ∧
    (runLog calls initState).threat_log =
      (calls.map fun c => mkThreatEntry c.1 c.2.1 c.2.2).drop
        (calls.length - 1000) := by
  have h := runLog_threat_log calls [] initState (by simp [initState])
  simp only [List.nil_append, List.length_nil, Nat.zero_add] at h
  refine ⟨?_, h⟩
  rw [h, List.length_drop, List.length_map]
  omega

/-- C3: for every path that does not exist, `scan_file_for_threats`
returns the `'File not found'` failure (the spec's `NotFoundError`) with
the state untouched, and `quarantine_file` fails with `False`, leaving
filesystem and state untouched. -/
theorem scan_quarantine_not_found (fs : FileSystem) (now : Int)
    (ts : String) (p : Path) (s : SecState) (h : fs.files p = none) :
    scan_file_for_threats fs now p s = (.error "File not found", s) ∧
    quarantine_file fs ts now p s = (false, fs, s) := by
  constructor
  · unfold scan_file_for_threats
    rw [h]
  · unfold quarantine_file
    rw [h]

/-- An empty filesystem, for exercising the not-found paths. -/
def emptyFS : FileSystem := { files := fun _ => none, dirs := [] }

/-- Witness for C3 at the concrete missing path `data/ghost.bin`. -/
theorem scan_quarantine_not_found_witness :
    scan_file_for_threats emptyFS 0 ["data", "ghost.bin"] initState =
      (.error "File not found", initState) ∧
    quarantine_file emptyFS "20250101_000000" 0 ["data", "ghost.bin"]
      initState = (false, emptyFS, initState) :=
  scan_quarantine_not_found emptyFS 0 "20250101_000000"
    ["data", "ghost.bin"] initState rfl

/-- C4: `get_threat_severity` is a pure total function; every kind in the
high table maps to `"high"`, every kind in the medium table to
`"medium"`, and every other kind to `"low"`. -/
theorem get_threat_severity_table :
    (∀ k ∈ high_severity, get_threat_severity k = "high") ∧
    (∀ k ∈ medium_severity, get_threat_severity k = "medium") ∧
    (∀ k, k ∉ high_severity → k ∉ medium_severity →
      get_threat_severity k = "low") := by
  refine ⟨fun k hk => ?_, fun k hk => ?_, fun k h1 h2 => ?_⟩
  · simp [get_threat_severity, hk]
  · have hnh : k ∉ high_severity := by
      fin_cases hk <;> decide
    simp [get_threat_severity, hnh, hk]
  · simp [get_threat_severity, h1, h2]

/-- Witness for C4: one kind from each table and one unknown kind. -/
theorem get_threat_severity_table_witness :
    get_threat_severity "suspicious_process" = "high" ∧
    get_threat_severity "high_cpu_usage" = "medium" ∧
    get_threat_severity "port_scan" = "low" :=
  ⟨get_threat_severity_table.1 "suspicious_process" (by decide),
   get_threat_severity_table.2.1 "high_cpu_usage" (by decide),
   get_threat_severity_table.2.2 "port_scan" (by decide) (by decide)⟩

theorem runCycle_is_monitoring (interval : Nat) (b : CycleBehavior)
    (s : SecState) : (runCycle interval b s).is_monitoring = s.is_monitoring := by
  cases b with
  | fault msg => rfl
  | ok threats => simpa [runCycle] using runLog_is_monitoring threats s

/-- C5: while the monitoring flag stays set, the loop runs every cycle the
environment offers — a fault in one cycle never terminates it — and a
faulting cycle records an operational error (never a ThreatEntry), delays
a full interval, and leaves the flag alone. -/
theorem monitoring_loop_fault_recovery (interval : Nat)
    (env : List CycleBehavior) (s : SecState)
    (h : s.is_monitoring = true) :
    monitoring_loop interval env s =
      env.foldl (fun t b => runCycle interval b t) s ∧
    ∀ (msg : String) (t : SecState),
      (runCycle interval (.fault msg) t).threat_log = t.threat_log ∧
      (runCycle interval (.fault msg) t).errors =
        t.errors ++ ["Security monitoring error: " ++ msg] ∧
      (runCycle interval (.fault msg) t).elapsed = t.elapsed + interval ∧
      (runCycle interval (.fault msg) t).is_monitoring = t.is_monitoring := by
  refine ⟨?_, fun msg t => ⟨rfl, rfl, rfl, rfl⟩⟩
  induction env generalizing s with
  | nil => rfl
  | cons b rest ih =>
    have h' : (runCycle interval b s).is_monitoring = true := by
      rw [runCycle_is_monitoring, h]
    calc monitoring_loop interval (b :: rest) s
        = monitoring_loop interval rest (runCycle interval b s) := by
          simp [monitoring_loop, h]
      _ = rest.foldl (fun t b => runCycle interval b t)
            (runCycle interval b s) := ih _ h'
      _ = (b :: rest).foldl (fun t b => runCycle interval b t) s := rfl

/-- A handler state whose monitoring loop is up: flag set, one live
background thread. -/
def runningState : SecState :=
  { is_monitoring := true, threads := 1, threat_log := [], spoken := [],
    errors := [], elapsed := 0 }

/-- Witness for C5: a faulting cycle followed by a clean one, both run. -/
theorem monitoring_loop_fault_recovery_witness :
    monitoring_loop 300 [CycleBehavior.fault "boom", CycleBehavior.ok []]
        runningState =
      [CycleBehavior.fault "boom", CycleBehavior.ok []].foldl
        (fun t b => runCycle 300 b t) runningState ∧
    (runCycle 300 (.fault "boom") runningState).threat_log =
      runningState.threat_log :=
  ⟨(monitoring_loop_fault_recovery 300
      [CycleBehavior.fault "boom", CycleBehavior.ok []] runningState rfl).1,
   ((monitoring_loop_fault_recovery 300 [] runningState rfl).2 "boom"
      runningState).1⟩

/-- C6 counterexample: `start; stop; start` issued before the old
background thread has observed the cleared flag leaves two live
monitoring loops, refuting "at most one background monitoring task exists
at any time". -/
theorem monitoring_lifecycle_counterexample :
    (runEvents [.start, .stop, .start] initState).threads = 2 := by
  decide

theorem runEvents_threads_le_one (es : List LifeEvent) :
    ∀ s : SecState, s.threads ≤ 1 → safeEvents s es = true →
      (runEvents es s).threads ≤ 1 := by
  induction es with
  | nil => intro s hs _; exact hs
  | cons e rest ih =>
    intro s hs hsafe
    simp only [safeEvents, Bool.and_eq_true] at hsafe
    have happ : (applyEvent e s).threads ≤ 1 := by
      cases e with
      | start =>
        rcases Bool.or_eq_true _ _ |>.mp hsafe.1 with hflag | hzero
        · simp [applyEvent, start_monitoring, hflag, hs]
        · have h0 : s.threads = 0 := by simpa using hzero
          simp only [applyEvent, start_monitoring]
          split
          · exact hs
          · simp [h0]
      | stop => simpa [applyEvent, stop_monitoring] using hs
      | check =>
        simp only [applyEvent, loop_boundary_check]
        split
        · exact hs
        · simp; omega
    exact ih (applyEvent e s) happ hsafe.2

/-- C6 (amended): calling `start_monitoring` while the loop is Running is
a no-op that spawns no second loop; `stop_monitoring` clears the flag, so
a status query reports `monitoring_active = false`; and at most one
background monitoring task is live at any time in every drain-safe trace
— i.e. provided `start` is never called again before the previously
stopped thread has observed the cleared flag at its loop boundary and
exited (without that proviso the claim fails, see the counterexample). -/
theorem monitoring_lifecycle (es : List LifeEvent) (s : SecState)
    (cpu mem disk : ℚ) (now : Int)
    (hthreads : s.threads ≤ 1) (hsafe : safeEvents s es = true) :
    (s.is_monitoring = true → start_monitoring s = s) ∧
    (stop_monitoring s).is_monitoring = false ∧
    (get_system_security_status cpu mem disk now
      (stop_monitoring s)).monitoring_active = false ∧
    (runEvents es s).threads ≤ 1 := by
  refine ⟨fun h => by simp [start_monitoring, h], rfl, rfl,
    runEvents_threads_le_one es s hthreads hsafe⟩

/-- Witness for C6 (amended): stop the running loop, let its thread drain,
then start again. -/
theorem monitoring_lifecycle_witness :
    (runningState.is_monitoring = true →
      start_monitoring runningState = runningState) ∧
    (stop_monitoring runningState).is_monitoring = false ∧
    (get_system_security_status 0 0 0 0
      (stop_monitoring runningState)).monitoring_active = false ∧
    (runEvents [.stop, .check, .start] runningState).threads ≤ 1 :=
  monitoring_lifecycle [.stop, .check, .start] runningState 0 0 0 0
    (by decide) (by decide)

/-- C10: every threat that `check_system_resources` can log uses one of
the kinds `high_system_cpu`, `high_system_memory`, `low_disk_space`; none
of these is in the high or medium severity tables, so each such entry is
classified `"low"`; and the check never triggers the spoken notice that
`log_threat` reserves for high-severity threats. -/
theorem resource_threats_low_severity (cpu mem disk : ℚ) (now : Int)
    (s : SecState) :
    (∀ e ∈ (check_system_resources cpu mem disk now s).threat_log,
      e ∈ s.threat_log ∨
        e.type ∈ (["high_system_cpu", "high_system_memory",
          "low_disk_space"] : List String)) ∧
    (∀ k ∈ (["high_system_cpu", "high_system_memory",
        "low_disk_space"] : List String),
      k ∉ high_severity ∧ k ∉ medium_severity ∧
        get_threat_severity k = "low") ∧
    (check_system_resources cpu mem disk now s).spoken = s.spoken := by
  refine ⟨?_, by decide, ?_⟩
  · intro e he
    simp only [check_system_resources] at he
    rcases mem_cond_log_threat he with he | rfl
    rotate_left
    · right; simp [mkThreatEntry]
    rcases mem_cond_log_threat he with he | rfl
    rotate_left
    · right; simp [mkThreatEntry]
    rcases mem_cond_log_threat he with he | rfl
    · exact Or.inl he
    · right; simp [mkThreatEntry]
  · simp only [check_system_resources]
    rw [spoken_cond_log_threat (by decide), spoken_cond_log_threat (by decide),
      spoken_cond_log_threat (by decide)]

/-- Witness for C10: all three resource conditions firing at once on the
fresh handler. -/
theorem resource_threats_low_severity_witness :
    (∀ e ∈ (check_system_resources 96 91 96 0 initState).threat_log,
      e ∈ initState.threat_log ∨
        e.type ∈ (["high_system_cpu", "high_system_memory",
          "low_disk_space"] : List String)) ∧
    (check_system_resources 96 91 96 0 initState).spoken =
      initState.spoken :=
  ⟨(resource_threats_low_severity 96 91 96 0 initState).1,
   (resource_threats_low_severity 96 91 96 0 initState).2.2⟩

theorem self_mem_log_threat (now : Int) (t : String) (d : Details)
    (s : SecState) :
    mkThreatEntry now t d ∈ (log_threat now t d s).threat_log := by
  unfold log_threat
  simp only
  split
  · rename_i hlen
    rw [List.drop_append_of_le_length
      (by simp only [List.length_append, List.length_singleton]; omega)]
    simp
  · simp

theorem quarantine_dest_ne_src (ts : String) (p : Path) :
    p ≠ (DATA_DIR ++ ["quarantine"]) ++ [ts ++ "_" ++ p.getLastD ""] := by
  intro h
  have h1 : p.getLastD "" = ts ++ "_" ++ p.getLastD "" := by
    conv_lhs => rw [h]
    rw [List.getLastD_concat]
  have h2 := congrArg String.length h1
  rw [String.length_append, String.length_append] at h2
  have : ("_" : String).length = 1 := rfl
  omega

/-- C7: for every existing source file, `quarantine_file` succeeds,
creates `data/quarantine` idempotently, moves (does not copy) the file to
`<timestamp>_<original basename>` inside it — afterwards the destination
holds the content and the original path no longer exists — and appends a
`file_quarantined` ThreatEntry recording original path, quarantine path
and timestamp, followed by the spoken notice. -/
theorem quarantine_moves_and_logs (fs : FileSystem) (ts : String)
    (now : Int) (p : Path) (f : FileData) (s : SecState)
    (hf : fs.files p = some f) :
    (quarantine_file fs ts now p s).1 = true ∧
    (DATA_DIR ++ ["quarantine"]) ∈ (quarantine_file fs ts now p s).2.1.dirs ∧
    ((DATA_DIR ++ ["quarantine"]) ∈ fs.dirs →
      (quarantine_file fs ts now p s).2.1.dirs = fs.dirs) ∧
    (quarantine_file fs ts now p s).2.1.files
        ((DATA_DIR ++ ["quarantine"]) ++ [ts ++ "_" ++ p.getLastD ""]) =
      some f ∧
    (quarantine_file fs ts now p s).2.1.files p = none ∧
    mkThreatEntry now "file_quarantined"
        (.quarantineInfo p
          ((DATA_DIR ++ ["quarantine"]) ++ [ts ++ "_" ++ p.getLastD ""]) now) ∈
      (quarantine_file fs ts now p s).2.2.threat_log ∧
    (quarantine_file fs ts now p s).2.2.threat_log =
      (log_threat now "file_quarantined"
        (.quarantineInfo p
          ((DATA_DIR ++ ["quarantine"]) ++ [ts ++ "_" ++ p.getLastD ""]) now)
        s).threat_log ∧
    (quarantine_file fs ts now p s).2.2.spoken =
      (log_threat now "file_quarantined"
        (.quarantineInfo p
          ((DATA_DIR ++ ["quarantine"]) ++ [ts ++ "_" ++ p.getLastD ""]) now)
        s).spoken ++ ["Suspicious file quarantined: " ++ p.getLastD ""] := by
  refine ⟨?_, ?_, ?_, ?_, ?_, ?_, ?_, ?_⟩
  · simp only [quarantine_file, hf]
  · simp only [quarantine_file, hf]
    split
    · assumption
    · simp
  · intro hmem
    simp only [quarantine_file, hf]
    rw [if_pos hmem]
  · simp only [quarantine_file, hf, if_true]
    split <;> exact hf
  · simp only [quarantine_file, hf]
    rw [if_neg (quarantine_dest_ne_src ts p)]
    simp
  · simp only [quarantine_file, hf]
    exact self_mem_log_threat now "file_quarantined" _ s
  · simp only [quarantine_file, hf]
  · simp only [quarantine_file, hf]

/-- A concrete file sitting at `home/evil.bin`. -/
def fileBin : FileData :=
  { size := 10, ext := ".bin", content := [], hash := "deadbeef" }

/-- A filesystem holding exactly `home/evil.bin`. -/
def oneFileFS : FileSystem :=
  { files := fun p => if p = ["home", "evil.bin"] then some fileBin else none,
    dirs := [] }

/-- Witness for C7: quarantining `home/evil.bin` at a concrete instant —
the move succeeds, the original path is gone, the content sits at the
quarantine path, and the `file_quarantined` entry is in the log. -/
theorem quarantine_moves_and_logs_witness :
    (quarantine_file oneFileFS "20250101_120000" 0 ["home", "evil.bin"]
      initState).1 = true ∧
    (quarantine_file oneFileFS "20250101_120000" 0 ["home", "evil.bin"]
        initState).2.1.files
        ((DATA_DIR ++ ["quarantine"]) ++
          ["20250101_120000" ++ "_" ++
            (["home", "evil.bin"] : Path).getLastD ""]) = some fileBin ∧
    (quarantine_file oneFileFS "20250101_120000" 0 ["home", "evil.bin"]
        initState).2.1.files ["home", "evil.bin"] = none ∧
    mkThreatEntry 0 "file_quarantined"
        (.quarantineInfo ["home", "evil.bin"]
          ((DATA_DIR ++ ["quarantine"]) ++
            ["20250101_120000" ++ "_" ++
              (["home", "evil.bin"] : Path).getLastD ""]) 0) ∈
      (quarantine_file oneFileFS "20250101_120000" 0 ["home", "evil.bin"]
        initState).2.2.threat_log := by
  obtain ⟨h1, _, _, h4, h5, h6, _, _⟩ :=
    quarantine_moves_and_logs oneFileFS "20250101_120000" 0
      ["home", "evil.bin"] fileBin initState (by decide)
  exact ⟨h1, h4, h5, h6⟩

/-- C9: for every gauge reading and threat-log state, `system_health` is
`critical` exactly when disk > 90 or some high-severity threat is in the
last hour, `warning` when (absent a critical condition) cpu > 80 or
memory > 85, and `good` otherwise; the recommendation for each triggered
condition is present (they accumulate); and disk = 96 yields `critical`
with the disk recommendation present. -/
theorem status_health_classification (cpu mem disk : ℚ) (now : Int)
    (s : SecState) :
    (get_system_security_status cpu mem disk now s).system_health =
      (if 90 < disk ∨ recent_high_threats now s.threat_log ≠ [] then
        "critical"
      else if 80 < cpu ∨ 85 < mem then "warning"
      else "good") ∧
    (recent_high_threats now s.threat_log ≠ [] ↔
      ∃ t ∈ s.threat_log, t.severity = "high" ∧ now - 3600 < t.timestamp) ∧
    (80 < cpu → "High CPU usage detected" ∈
      (get_system_security_status cpu mem disk now s).recommendations) ∧
    (85 < mem → "High memory usage detected" ∈
      (get_system_security_status cpu mem disk now s).recommendations) ∧
    (90 < disk → "Low disk space - cleanup recommended" ∈
      (get_system_security_status cpu mem disk now s).recommendations) ∧
    (recent_high_threats now s.threat_log ≠ [] →
      "Recent high-severity threats detected" ∈
        (get_system_security_status cpu mem disk now s).recommendations) ∧
    (disk = 96 →
      (get_system_security_status cpu mem disk now s).system_health =
          "critical" ∧
        "Low disk space - cleanup recommended" ∈
          (get_system_security_status cpu mem disk now s).recommendations) := by
  have hex : recent_high_threats now s.threat_log ≠ [] ↔
      ∃ t ∈ s.threat_log, t.severity = "high" ∧ now - 3600 < t.timestamp := by
    unfold recent_high_threats
    rw [Ne, List.filter_eq_nil_iff]
    push_neg
    simp
  have hhealth : (get_system_security_status cpu mem disk now s).system_health =
      (if 90 < disk ∨ recent_high_threats now s.threat_log ≠ [] then
        "critical"
      else if 80 < cpu ∨ 85 < mem then "warning"
      else "good") := by
    simp only [get_system_security_status]
    by_cases h1 : 80 < cpu <;> by_cases h2 : 85 < mem <;>
      by_cases h3 : 90 < disk <;>
      by_cases h4 : recent_high_threats now s.threat_log = [] <;>
      simp [h1, h2, h3, h4, List.length_eq_zero]
  have hcpu : 80 < cpu → "High CPU usage detected" ∈
      (get_system_security_status cpu mem disk now s).recommendations := by
    intro h
    simp [get_system_security_status, h]
  have hmem : 85 < mem → "High memory usage detected" ∈
      (get_system_security_status cpu mem disk now s).recommendations := by
    intro h
    simp [get_system_security_status, h]
  have hdisk : 90 < disk → "Low disk space - cleanup recommended" ∈
      (get_system_security_status cpu mem disk now s).recommendations := by
    intro h
    simp [get_system_security_status, h]
  have hrec : recent_high_threats now s.threat_log ≠ [] →
      "Recent high-severity threats detected" ∈
        (get_system_security_status cpu mem disk now s).recommendations := by
    intro h
    have h' : (recent_high_threats now s.threat_log).length ≠ 0 := by
      simpa [List.length_eq_zero] using h
    simp [get_system_security_status, h']
  refine ⟨hhealth, hex, hcpu, hmem, hdisk, hrec, fun hd => ?_⟩
  have h3 : (90 : ℚ) < disk := by rw [hd]; norm_num
  exact ⟨by rw [hhealth, if_pos (Or.inl h3)], hdisk h3⟩

/-- Witness for C9: the disk = 96% scenario on the fresh handler. -/
theorem status_health_classification_witness :
    (get_system_security_status 10 10 96 0 initState).system_health =
        "critical" ∧
      "Low disk space - cleanup recommended" ∈
        (get_system_security_status 10 10 96 0 initState).recommendations :=
  (status_health_classification 10 10 96 0 initState).2.2.2.2.2.2 rfl

/-! ## Entropy lemmas -/

theorem entropy_support_filter (content : List Byte) :
    Finset.univ.filter (fun b => 0 < content.count b) = content.toFinset := by
  ext b
  simp [List.count_pos_iff]

theorem entropy_sum_counts (content : List Byte) :
    ∑ b in content.toFinset, content.count b = content.length := by
  have h := Multiset.toFinset_sum_count_eq (content : Multiset Byte)
  simp only [Multiset.coe_count, Multiset.coe_card] at h
  simp only [List.toFinset]
  exact h

theorem entropy_nonneg (content : List Byte) :
    0 ≤ calculate_file_entropy content := by
  unfold calculate_file_entropy
  split
  · exact le_refl 0
  · rename_i hne
    have hn : 0 < content.length := Nat.pos_of_ne_zero hne
    apply Finset.sum_nonneg
    intro b _
    split
    · rename_i hb
      have hp0 : 0 < (content.count b : ℝ) / (content.length : ℝ) :=
        div_pos (by exact_mod_cast hb) (by exact_mod_cast hn)
      have hp1 : (content.count b : ℝ) / (content.length : ℝ) ≤ 1 := by
        rw [div_le_one (by exact_mod_cast hn)]
        exact_mod_cast List.count_le_length b content
      have hlog := Real.logb_nonpos (by norm_num : (1 : ℝ) < 2) hp0.le hp1
      have := mul_nonneg hp0.le (neg_nonneg.mpr hlog)
      linarith [this]
    · exact le_refl 0

theorem entropy_guarded_sum (content : List Byte) :
    (∑ b : Byte,
      if 0 < content.count b then
        -((content.count b : ℝ) / (content.length : ℝ) *
          Real.logb 2 ((content.count b : ℝ) / (content.length : ℝ)))
      else 0) =
    ∑ b in content.toFinset,
      -((content.count b : ℝ) / (content.length : ℝ) *
        Real.logb 2 ((content.count b : ℝ) / (content.length : ℝ))) := by
  rw [← entropy_support_filter content, Finset.sum_filter]

theorem entropy_le_eight (content : List Byte) :
    calculate_file_entropy content ≤ 8 := by
  unfold calculate_file_entropy
  split
  · norm_num
  · rename_i hne
    have hn : 0 < content.length := Nat.pos_of_ne_zero hne
    have hnR : (0 : ℝ) < (content.length : ℝ) := by exact_mod_cast hn
    rw [entropy_guarded_sum content]
    set T := content.toFinset with hT
    set p : Byte → ℝ := fun b => (content.count b : ℝ) / (content.length : ℝ)
      with hp
    have hpos : ∀ b ∈ T, 0 < p b := by
      intro b hb
      have : 0 < content.count b := by
        rwa [List.count_pos_iff, ← List.mem_toFinset]
      exact div_pos (by exact_mod_cast this) hnR
    have hsum1 : ∑ b in T, p b = 1 := by
      have hc : ∑ b in T, (content.count b : ℝ) = (content.length : ℝ) := by
        rw [← Nat.cast_sum]
        exact_mod_cast congrArg (Nat.cast : ℕ → ℝ) (entropy_sum_counts content)
      simp only [hp, ← Finset.sum_div]
      rw [hc, div_self (ne_of_gt hnR)]
    -- rewrite each term as p b * log (p b)⁻¹ scaled by log 2
    have hterm : ∀ b ∈ T,
        -(p b * Real.logb 2 (p b)) = p b * Real.log (p b)⁻¹ / Real.log 2 := by
      intro b hb
      rw [Real.log_inv, Real.logb, mul_div_assoc]
      ring
    rw [Finset.sum_congr rfl hterm, ← Finset.sum_div]
    -- Jensen's inequality for the concave logarithm
    have hconc : ConcaveOn ℝ (Set.Ioi 0) Real.log :=
      strictConcaveOn_log_Ioi.concaveOn
    have hjensen := hconc.le_map_sum (t := T) (w := p) (p := fun b => (p b)⁻¹)
      (fun b hb => (hpos b hb).le) hsum1
      (fun b hb => Set.mem_Ioi.mpr (inv_pos.mpr (hpos b hb)))
    have hcollapse : ∑ b in T, p b • (p b)⁻¹ = (T.card : ℝ) := by
      rw [Finset.sum_congr rfl
        (fun b hb => by
          rw [smul_eq_mul, mul_inv_cancel₀ (ne_of_gt (hpos b hb))])]
      simp
    have hA : ∑ b in T, p b * Real.log (p b)⁻¹ ≤ Real.log (T.card : ℝ) := by
      calc ∑ b in T, p b * Real.log (p b)⁻¹
          = ∑ b in T, p b • Real.log ((p b)⁻¹) := by
            exact Finset.sum_congr rfl (fun b _ => by rw [smul_eq_mul])
        _ ≤ Real.log (∑ b in T, p b • (p b)⁻¹) := hjensen
        _ = Real.log (T.card : ℝ) := by rw [hcollapse]
    have hlog2 : (0 : ℝ) < Real.log 2 := Real.log_pos (by norm_num)
    have hTne : T.Nonempty := by
      rw [hT, List.toFinset_nonempty_iff]
      intro h
      rw [h] at hn
      simp at hn
    have hcard1 : (1 : ℝ) ≤ (T.card : ℝ) := by
      exact_mod_cast Finset.card_pos.mpr hTne
    have hcard256 : (T.card : ℝ) ≤ 256 := by
      have := Finset.card_le_univ T
      have h2 : Fintype.card Byte = 256 := Fintype.card_fin 256
      exact_mod_cast h2 ▸ this
    have hlogcard : Real.log (T.card : ℝ) ≤ Real.log 256 :=
      Real.log_le_log (by linarith) hcard256
    have hlog256 : Real.log 256 / Real.log 2 = 8 := by
      rw [Real.log_div_log]
      have : (256 : ℝ) = 2 ^ (8 : ℕ) := by norm_num
      rw [this, Real.logb_pow, Real.logb_self_eq_one (by norm_num)]
      norm_num
    calc (∑ b in T, p b * Real.log (p b)⁻¹) / Real.log 2
        ≤ Real.log (T.card : ℝ) / Real.log 2 :=
          div_le_div_of_nonneg_right hA hlog2.le
      _ ≤ Real.log 256 / Real.log 2 :=
          div_le_div_of_nonneg_right hlogcard hlog2.le
      _ = 8 := hlog256

/-- C8: `calculate_file_entropy` returns 0 on the empty stream, always
lies in [0, 8], and on a nonempty stream equals the Shannon entropy
−Σ p·log2 p over the byte-value frequencies of the entire stream. -/
theorem entropy_shannon_bounds (content : List Byte) :
    calculate_file_entropy [] = 0 ∧
    0 ≤ calculate_file_entropy content ∧
    calculate_file_entropy content ≤ 8 ∧
    (content ≠ [] →
      calculate_file_entropy content =
        -∑ b in content.toFinset,
          (content.count b : ℝ) / (content.length : ℝ) *
            Real.logb 2 ((content.count b : ℝ) / (content.length : ℝ))) := by
  refine ⟨by simp [calculate_file_entropy], entropy_nonneg content,
    entropy_le_eight content, fun hne => ?_⟩
  unfold calculate_file_entropy
  rw [if_neg (by simpa [List.length_eq_zero] using hne)]
  rw [entropy_guarded_sum content, Finset.sum_neg_distrib]

/-- Witness for C8 at a concrete one-byte stream. -/
theorem entropy_shannon_bounds_witness :
    calculate_file_entropy [] = 0 ∧
    0 ≤ calculate_file_entropy [(0 : Byte)] ∧
    calculate_file_entropy [(0 : Byte)] ≤ 8 :=
  ⟨(entropy_shannon_bounds [(0 : Byte)]).1,
   (entropy_shannon_bounds [(0 : Byte)]).2.1,
   (entropy_shannon_bounds [(0 : Byte)]).2.2.1⟩

/-- The stream listing each byte value exactly once has entropy exactly
8 bits per byte. -/
theorem entropy_finRange : calculate_file_entropy (List.finRange 256) = 8 := by
  have hcnt : ∀ b : Byte, (List.finRange 256).count b = 1 := fun b =>
    List.count_eq_one_of_mem (List.nodup_finRange 256) (List.mem_finRange b)
  have hlog : Real.logb 2 ((1 : ℝ) / 256) = -8 := by
    rw [one_div, Real.logb_inv]
    have h256 : (256 : ℝ) = 2 ^ (8 : ℕ) := by norm_num
    rw [h256, Real.logb_pow, Real.logb_self_eq_one (by norm_num)]
    norm_num
  unfold calculate_file_entropy
  rw [if_neg (by simp)]
  have hterm : ∀ b : Byte,
      (if 0 < (List.finRange 256).count b then
        -(((List.finRange 256).count b : ℝ) /
            ((List.finRange 256).length : ℝ) *
          Real.logb 2 (((List.finRange 256).count b : ℝ) /
            ((List.finRange 256).length : ℝ)))
      else 0) = 8 / 256 := by
    intro b
    rw [hcnt b, if_pos (by norm_num)]
    simp only [List.length_finRange, Nat.cast_one, Nat.cast_ofNat]
    rw [show ((1 : ℝ) / (256 : ℝ)) = (1 : ℝ) / 256 from rfl, hlog]
    norm_num
  rw [Finset.sum_congr rfl (fun b _ => hterm b)]
  rw [Finset.sum_const, Finset.card_univ, Fintype.card_fin, nsmul_eq_mul]
  norm_num

/-- C2: for every existing file, the scanner accumulates the findings of
the four independent checks in source order with no short-circuit,
`is_safe` holds exactly when no finding was produced, and when unsafe the
state picks up the `file_threat_detected` log entry; for a file with
extension `.exe`, size 5 MiB, entropy above the 7.5 threshold and a
digest in the known-bad set, exactly the three findings
`suspicious_extension`, `high_entropy`, `known_malware_hash` are produced
(no `large_file_size`) and `is_safe` is false. -/
theorem scan_file_findings_accumulate (fs : FileSystem) (now : Int)
    (p : Path) (f : FileData) (s : SecState) (hf : fs.files p = some f) :
    ∃ r : FileScanResult,
      scan_file_for_threats fs now p s =
        (.ok r,
          if r.is_safe then s
          else log_threat now "file_threat_detected" (.scanResult r) s) ∧
      r.threats_found =
        extension_findings f ++ size_findings f ++ entropy_findings f ++
          hash_findings f ∧
      (r.is_safe = true ↔ r.threats_found = []) ∧
      (f.ext = ".exe" → f.size = 5 * 1024 * 1024 →
        7.5 < calculate_file_entropy f.content →
        check_hash_reputation f.hash = true →
        r.threats_found.map Finding.type =
          ["suspicious_extension", "high_entropy", "known_malware_hash"] ∧
        r.is_safe = false) := by
  unfold scan_file_for_threats
  rw [hf]
  refine ⟨_, rfl, rfl, by simp [List.length_eq_zero], ?_⟩
  intro h1 h2 h3 h4
  have hext : (".exe" : String) ∈ suspicious_extensions := by decide
  have hsize : ¬ (5 * 1024 * 1024 > 100 * 1024 * 1024) := by decide
  have he1 : extension_findings f =
      [{ type := "suspicious_extension",
         description :=
           "File has potentially dangerous extension: " ++ f.ext }] := by
    rw [extension_findings, if_pos (h1 ▸ hext)]
  have he2 : size_findings f = [] := by
    rw [size_findings, if_neg (h2 ▸ hsize)]
  have he3 : entropy_findings f =
      [{ type := "high_entropy",
         description :=
           "High entropy detected (possible encryption/packing)" }] := by
    rw [entropy_findings, if_pos h3]
  have he4 : hash_findings f =
      [{ type := "known_malware_hash",
         description := "File hash matches known malware signature" }] := by
    rw [hash_findings, if_pos h4]
  simp [he1, he2, he3, he4]

/-- The scenario file of C2: `.exe`, 5 MiB, maximal-entropy content, and
the digest sitting in the known-bad set. -/
def suspectFile : FileData :=
  { size := 5 * 1024 * 1024, ext := ".exe", content := List.finRange 256,
    hash := "44d88612fea8a8f36de82e1278abb02f" }

/-- A filesystem holding exactly `downloads/suspect.exe`. -/
def suspectFS : FileSystem :=
  { files := fun p =>
      if p = ["downloads", "suspect.exe"] then some suspectFile else none,
    dirs := [] }

set_option maxRecDepth 4000 in
/-- Witness for C2: scanning `downloads/suspect.exe` yields exactly the
three scenario findings, `is_safe = false`, and the
`file_threat_detected` log write. -/
theorem scan_file_findings_accumulate_witness :
    ∃ r : FileScanResult,
      scan_file_for_threats suspectFS 0 ["downloads", "suspect.exe"]
          initState =
        (.ok r, log_threat 0 "file_threat_detected" (.scanResult r)
          initState) ∧
      r.threats_found.map Finding.type =
        ["suspicious_extension", "high_entropy", "known_malware_hash"] ∧
      r.is_safe = false := by
  obtain ⟨r, heq, hacc, hiff, hscen⟩ :=
    scan_file_findings_accumulate suspectFS 0 ["downloads", "suspect.exe"]
      suspectFile initState rfl
  have hent : (7.5 : ℝ) < calculate_file_entropy suspectFile.content := by
    show (7.5 : ℝ) < calculate_file_entropy (List.finRange 256)
    rw [entropy_finRange]
    norm_num
  obtain ⟨hmap, hsafe⟩ := hscen rfl rfl hent (by decide)
  rw [hsafe] at heq
  simp only [Bool.false_eq_true, if_false] at heq
  exact ⟨r, heq, hmap, hsafe⟩

end Security
